import Mathlib

/-!
Shallow embedding of `src/salt/proxy/junos.py`, the Junos proxy-minion module.

Modelling conventions:
- Python dicts are association lists with unique keys (`Dict`, `Record`, fact
  dicts); `d[k]` is first-match lookup, `d[k] = v` replaces the first binding
  or appends, `d.pop(k)` removes the binding.
- Python `None` is an explicit value (`PyVal.none`) so that a key bound to
  `None` is distinguishable from an absent key, exactly as in a Python dict.
- Raised exceptions (all subclasses of `Exception` in this module: `KeyError`,
  `ValueError`, `TypeError`, SDK errors) are an explicit result constructor
  (`PyResult.exn`).
- The byte stream read one byte at a time by `client.recv(1)` is a
  `List Char`; an exhausted list models a socket on which `recv` blocks
  (or returns nothing) - the read loop has not exited.
-/

namespace Junos

/-- Values stored in the Python dicts of the module (`opts`, `opts['proxy']`,
the assembled `args`). -/
inductive PyVal where
  | none
  | str (s : String)
  | int (n : Int)
  | bool (b : Bool)
  deriving DecidableEq

/-- A Python dict with string keys, as an association list with unique keys. -/
abbrev Dict := List (String × PyVal)

/-- Python `d[k]`: value of the first binding of `k`, if any. -/
def lookup : Dict → String → Option PyVal
  | [], _ => Option.none
  | (k', v) :: rest, k => if k' = k then some v else lookup rest k

/-- Python `d[k] = v`: replace the first binding of `k`, or append a new one. -/
def setKey : Dict → String → PyVal → Dict
  | [], k, v => [(k, v)]
  | (k', v') :: rest, k, v =>
      if k' = k then (k, v) :: rest else (k', v') :: setKey rest k v

/-- Python `d.pop(k)`: remove the binding of `k` (unique-key dicts, so
removing every binding coincides with removing the first). -/
def delKey (d : Dict) (k : String) : Dict :=
  d.filter (fun p => p.1 ≠ k)

/-- Python `k in d.keys()`. -/
def hasKey (d : Dict) (k : String) : Bool :=
  (lookup d k).isSome

/-- The `optional_args` list of `init` (junos.py lines 94-107), in source
order. -/
def optional_args : List String :=
  ["user", "username", "password", "passwd", "port", "gather_facts", "mode",
   "baud", "attempts", "auto_probe", "ssh_private_key_file", "ssh_config",
   "normalize"]

/-- Lines 84-92 of `init`: the initial `args` dict. `args = {"host":
opts['proxy']['host']}` when `'host' in opts['proxy'].keys()` else
`{"host": None}`; then `args['sock_fd'] = opts['sock_fd']` when present else
`None`. -/
def baseArgs (proxy : Dict) (sock_fd : Option PyVal) : Dict :=
  let args : Dict :=
    match lookup proxy "host" with
    | some v => [("host", v)]
    | Option.none => [("host", PyVal.none)]
  setKey args "sock_fd"
    (match sock_fd with
     | some v => v
     | Option.none => PyVal.none)

/-- Lines 109-110 of `init`: `if 'username' in opts['proxy'].keys():
opts['proxy']['user'] = opts['proxy'].pop('username')`. -/
def aliasedProxy (proxy : Dict) : Dict :=
  match lookup proxy "username" with
  | some v => setKey (delKey proxy "username") "user" v
  | Option.none => proxy

/-- One iteration of the copy loop at lines 112-114 of `init`:
`if arg in proxy_keys: args[arg] = opts['proxy'][arg]`. -/
def copyStep (p : Dict) (a : Dict) (k : String) : Dict :=
  match lookup p k with
  | some v => setKey a k v
  | Option.none => a

/-- Connection Arguments assembled by `init` (junos.py lines 84-114) from the
`proxy` sub-mapping and the optional top-level `sock_fd` entry of `opts`. -/
def initArgs (proxy : Dict) (sock_fd : Option PyVal) : Dict :=
  List.foldl (copyStep (aliasedProxy proxy)) (baseArgs proxy sock_fd)
    optional_args

/-! ### The Handshake Parser (`_launch_junos_proxy`, lines 133-161) -/

/-- The Handshake Record `val`: a Python dict with `List Char` keys whose
values are `None` (`Option.none`) or a parsed string. -/
abbrev Record := List (List Char × Option (List Char))

/-- Initial `val` dict of `_launch_junos_proxy` (lines 134-138). -/
def initVal : Record :=
  [("MSG-ID".data, Option.none), ("MSG-VER".data, Option.none),
   ("DEVICE-ID".data, Option.none)]

/-- Python `val[key]` lookup on the Handshake Record. -/
def recLookup : Record → List Char → Option (Option (List Char))
  | [], _ => Option.none
  | (k', v) :: rest, k => if k' = k then some v else recLookup rest k

/-- Python `val[key] = value` on the Handshake Record. -/
def recSet : Record → List Char → List Char → Record
  | [], k, v => [(k, some v)]
  | (k', v') :: rest, k, v =>
      if k' = k then (k, some v) :: rest else (k', v') :: recSet rest k v

/-- Python `msg.find(':')`: index of the first colon, `none` standing for the
`-1` returned when there is no colon. -/
def findColon : List Char → Option Nat
  | [] => Option.none
  | c :: rest => if c = ':' then some 0 else (findColon rest).map (· + 1)

/-- Truthiness of the Python int `msg.find(':')` (line 148): an int is falsy
exactly when it is `0`, so the guard holds unless the first colon sits at
index 0 - in particular `-1` (no colon at all) is truthy. -/
def findColonTruthy (msg : List Char) : Bool :=
  findColon msg ≠ some 0

/-- Worker for `splitColonSpace`, accumulating the current piece reversed. -/
def splitCSAux : List Char → List Char → List (List Char)
  | acc, ':' :: ' ' :: rest => acc.reverse :: splitCSAux [] rest
  | acc, c :: rest => splitCSAux (c :: acc) rest
  | acc, [] => [acc.reverse]

/-- Python `msg.split(': ')`: split on every non-overlapping occurrence of
the two-character separator, left to right. -/
def splitColonSpace (msg : List Char) : List (List Char) :=
  splitCSAux [] msg

/-- Outcome of handling one received byte inside the read loop. -/
inductive StepOut where
  | cont (val : Record) (msg : List Char) (count : Nat)
  | raiseVE
  deriving DecidableEq

/-- Body of the read loop for one byte `c` (lines 142-153): discard `'\r'`;
on `'\n'` decrement `count` and, when the always-true-except-leading-colon
guard `msg.find(':')` holds, unpack `msg.split(': ')` into `(key, value)` -
a `ValueError` when the split does not yield exactly two pieces - and store
it, resetting `msg`; otherwise append `c` to `msg`. -/
def handleByte (c : Char) (val : Record) (msg : List Char) (count : Nat) :
    StepOut :=
  if c = '\r' then .cont val msg count
  else if c = '\n' then
    if findColonTruthy msg then
      match splitColonSpace msg with
      | [key, value] => .cont (recSet val key value) [] (count - 1)
      | _ => .raiseVE
    else .cont val msg (count - 1)
  else .cont val (msg ++ [c]) count

/-- Result of the read loop: `done` when the `while` condition fails (with
the unread remainder of the stream), `valueError` when the `(key, value)`
unpacking raises, `blocked` when the stream is exhausted while the loop
still wants another byte. -/
inductive ParseResult where
  | done (val : Record) (rest : List Char)
  | valueError (rest : List Char)
  | blocked (val : Record) (msg : List Char) (count : Nat)
  deriving DecidableEq

/-- The read loop `while len(msg) < 100 and count > 0` of
`_launch_junos_proxy` (lines 139-153), consuming the stream one byte per
iteration. -/
def parseLoop (stream : List Char) (val : Record) (msg : List Char)
    (count : Nat) : ParseResult :=
  if msg.length < 100 ∧ 0 < count then
    match stream with
    | [] => .blocked val msg count
    | c :: rest =>
      match handleByte c val msg count with
      | .cont val' msg' count' => parseLoop rest val' msg' count'
      | .raiseVE => .valueError rest
  else .done val stream

/-- Python `str(fh)` for a file-descriptor number. -/
def natStr (n : Nat) : List Char :=
  (Nat.repr n).data

/-- What the dispatcher does after the read loop (lines 155-161): raise
`KeyError` were `DEVICE-ID` unbound (it never is for parser-produced
records), spawn `salt-proxy` when `val['DEVICE-ID']` is truthy (a non-`None`,
non-empty string), and do nothing otherwise. -/
inductive LaunchResult where
  | spawned (argv : List (List Char))
  | noSpawn
  | keyErr
  deriving DecidableEq

/-- Lines 155-161 of `_launch_junos_proxy`: `proxy_id = val['DEVICE-ID']`,
`fh = client.fileno()`, and the guarded `subprocess.Popen` call. -/
def launchDecision (val : Record) (fh : Nat) : LaunchResult :=
  match recLookup val "DEVICE-ID".data with
  | Option.none => .keyErr
  | some devid =>
    match devid with
    | some d =>
        if d = [] then .noSpawn
        else .spawned ["/usr/bin/salt-proxy".data, "--proxyid".data, d,
                       "--sockfd".data, natStr fh, "--disable-keepalive".data]
    | Option.none => .noSpawn

/-! ### The Session Registry side (`thisproxy`, `conn`, `ping`,
`get_serialized_facts`, `shutdown`) -/

/-- A raised Python exception. Every exception this module can raise or
swallow (`KeyError`, `ValueError`, `TypeError`, SDK connect errors) is a
subclass of `Exception`, so `except Exception` catches every `PyExn`. -/
inductive PyExn where
  | keyError (k : String)
  | other (name : String)
  deriving DecidableEq

/-- Result of running a piece of Python code: a value, or a raised
exception propagating out. -/
inductive PyResult (α : Type) where
  | ok (a : α)
  | exn (e : PyExn)
  deriving DecidableEq

/-- A value inside the facts mapping of a session: a scalar, an SDK-native
mapping subtype, or a plain dict. -/
inductive FactVal where
  | prim (s : String)
  | sdkDict (entries : List (String × FactVal))
  | dict (entries : List (String × FactVal))

/-- A facts-level mapping. -/
abbrev FactDict := List (String × FactVal)

/-- Python `d[k]` on a facts mapping. -/
def factLookup : FactDict → String → Option FactVal
  | [], _ => Option.none
  | (k', v) :: rest, k => if k' = k then some v else factLookup rest k

/-- Python `d[k] = v` on a facts mapping. -/
def factSet : FactDict → String → FactVal → FactDict
  | [], k, v => [(k, v)]
  | (k', v') :: rest, k, v =>
      if k' = k then (k, v) :: rest else (k', v') :: factSet rest k v

/-- Python `dict(x)`: a plain-dict copy of a mapping, `TypeError` on a
non-mapping. -/
def pyDictOf : FactVal → PyResult FactDict
  | .prim _ => .exn (.other "TypeError")
  | .sdkDict es => .ok es
  | .dict es => .ok es

/-- The Session Handle stored in `thisproxy['conn']`: its `connected` flag
and its `facts` mapping (already the plain top-level copy that
`dict(thisproxy['conn'].facts)` produces). -/
structure Session where
  connected : Bool
  facts : FactDict

/-- One routing engine of `junos_info` (lines 187-189):
`facts['junos_info'][re]['object'] = dict(facts['junos_info'][re]['object'])`,
mutating in place and so preserving the container kind of the entry. -/
def serializeREObject : FactVal → PyResult FactVal
  | .prim _ => .exn (.other "TypeError")
  | .sdkDict es =>
    match factLookup es "object" with
    | Option.none => .exn (.keyError "object")
    | some ov =>
      match pyDictOf ov with
      | .exn e => .exn e
      | .ok os => .ok (.sdkDict (factSet es "object" (.dict os)))
  | .dict es =>
    match factLookup es "object" with
    | Option.none => .exn (.keyError "object")
    | some ov =>
      match pyDictOf ov with
      | .exn e => .exn e
      | .ok os => .ok (.dict (factSet es "object" (.dict os)))

/-- The `for re in facts['junos_info']` loop of lines 187-189, over the
entries of the `junos_info` mapping. -/
def serializeJunosEntries : FactDict → PyResult FactDict
  | [] => .ok []
  | (k, v) :: rest =>
    match serializeREObject v with
    | .exn e => .exn e
    | .ok v' =>
      match serializeJunosEntries rest with
      | .exn e => .exn e
      | .ok rest' => .ok ((k, v') :: rest')

/-- The process-wide registry slot `thisproxy['conn']`: absent until a
successful `init` stores a Session Handle. -/
abbrev Registry := Option Session

/-- `conn()` (lines 168-169): `return thisproxy['conn']`, a `KeyError`
before `init` has stored a session. -/
def conn : Registry → PyResult Session
  | Option.none => .exn (.keyError "conn")
  | some s => .ok s

/-- `ping()` (lines 193-197): `return thisproxy['conn'].connected`. -/
def ping : Registry → PyResult Bool
  | Option.none => .exn (.keyError "conn")
  | some s => .ok s.connected

/-- `get_serialized_facts()` (lines 179-190): a `KeyError` before `init`;
otherwise copy the facts, convert `version_info` to a plain dict when
present, and convert each `junos_info[re]['object']` to a plain dict when
`junos_info` is present. -/
def get_serialized_facts (reg : Registry) : PyResult FactDict :=
  match reg with
  | Option.none => .exn (.keyError "conn")
  | some s =>
    let facts := s.facts
    let afterVersion : PyResult FactDict :=
      match factLookup facts "version_info" with
      | Option.none => .ok facts
      | some vi =>
        match pyDictOf vi with
        | .exn e => .exn e
        | .ok es => .ok (factSet facts "version_info" (.dict es))
    match afterVersion with
    | .exn e => .exn e
    | .ok f1 =>
      match factLookup f1 "junos_info" with
      | Option.none => .ok f1
      | some ji =>
        match ji with
        | .prim _ => .exn (.other "TypeError")
        | .sdkDict es =>
          match serializeJunosEntries es with
          | .exn e => .exn e
          | .ok es' => .ok (factSet f1 "junos_info" (.sdkDict es'))
        | .dict es =>
          match serializeJunosEntries es with
          | .exn e => .exn e
          | .ok es' => .ok (factSet f1 "junos_info" (.dict es'))

/-- `shutdown(opts)` (lines 200-210). The intent-logging line evaluates
`opts['id']` eagerly, outside the `try`, so a missing `id` key raises; the
`try`/`except Exception: pass` around `thisproxy['conn'].close()` swallows
both a missing registry slot and any exception the SDK close raises. The
behavior of the external close call is a parameter. -/
def shutdown (opts : Dict) (reg : Registry)
    (closeSession : Session → PyResult Unit) : PyResult Unit :=
  match lookup opts "id" with
  | Option.none => .exn (.keyError "id")
  | some _ =>
    match (match reg with
           | Option.none => PyResult.exn (PyExn.keyError "conn")
           | some s => closeSession s) with
    | .ok _ => .ok ()
    | .exn _ => .ok ()

/-! ### Dict lemmas -/

theorem lookup_setKey_self (d : Dict) (k : String) (v : PyVal) :
    lookup (setKey d k v) k = some v := by
  induction d with
  | nil => simp [setKey, lookup]
  | cons hd tl ih =>
    obtain ⟨k', v'⟩ := hd
    by_cases h : k' = k
    · simp [setKey, h, lookup]
    · simp [setKey, h, lookup, ih]

theorem lookup_setKey_ne (d : Dict) (k : String) (v : PyVal) (k' : String)
    (h : k' ≠ k) : lookup (setKey d k v) k' = lookup d k' := by
  induction d with
  | nil => simp [setKey, lookup, Ne.symm h]
  | cons hd tl ih =>
    obtain ⟨k₀, v₀⟩ := hd
    by_cases h0 : k₀ = k
    · subst h0
      simp [setKey, lookup, Ne.symm h]
    · simp [setKey, h0, lookup, ih]

theorem lookup_delKey_self (d : Dict) (k : String) :
    lookup (delKey d k) k = Option.none := by
  induction d with
  | nil => simp [delKey, lookup]
  | cons hd tl ih =>
    obtain ⟨k₀, v₀⟩ := hd
    by_cases h0 : k₀ = k
    · simpa [delKey, h0] using ih
    · simpa [delKey, lookup, h0] using ih

theorem lookup_delKey_ne (d : Dict) (k k' : String) (h : k' ≠ k) :
    lookup (delKey d k) k' = lookup d k' := by
  induction d with
  | nil => simp [delKey, lookup]
  | cons hd tl ih =>
    obtain ⟨k₀, v₀⟩ := hd
    by_cases h0 : k₀ = k
    · subst h0
      simpa [delKey, lookup, Ne.symm h] using ih
    · by_cases h1 : k₀ = k'
      · subst h1
        simp [delKey, lookup, h]
      · simpa [delKey, lookup, h0, h1] using ih

theorem lookup_copyStep_ne (p a : Dict) (j k : String) (h : k ≠ j) :
    lookup (copyStep p a j) k = lookup a k := by
  unfold copyStep
  cases lookup p j with
  | none => rfl
  | some v => exact lookup_setKey_ne a j v k h

theorem lookup_foldl_copyStep_not_mem (p : Dict) (ks : List String) :
    ∀ (a : Dict) (k : String), k ∉ ks →
      lookup (List.foldl (copyStep p) a ks) k = lookup a k := by
  induction ks with
  | nil =>
    intro a k _
    rfl
  | cons j rest ih =>
    intro a k h
    have hkj : k ≠ j := fun e => h (e ▸ List.mem_cons_self j rest)
    have hrest : k ∉ rest := fun e => h (List.mem_cons_of_mem j e)
    simp only [List.foldl_cons]
    rw [ih (copyStep p a j) k hrest, lookup_copyStep_ne p a j k hkj]

theorem lookup_foldl_copyStep_of_some (p : Dict) (ks : List String) :
    ∀ (a : Dict) (k : String) (v : PyVal), k ∈ ks → ks.Nodup →
      lookup p k = some v →
      lookup (List.foldl (copyStep p) a ks) k = some v := by
  induction ks with
  | nil =>
    intro a k v hmem _ _
    cases hmem
  | cons j rest ih =>
    intro a k v hmem hnd hv
    simp only [List.foldl_cons]
    by_cases hkj : j = k
    · subst hkj
      have hrest : j ∉ rest := (List.nodup_cons.mp hnd).1
      rw [lookup_foldl_copyStep_not_mem p rest _ j hrest]
      unfold copyStep
      rw [hv]
      exact lookup_setKey_self a j v
    · have hmem' : k ∈ rest := by
        cases List.mem_cons.mp hmem with
        | inl e => exact absurd e.symm hkj
        | inr m => exact m
      exact ih (copyStep p a j) k v hmem' (List.nodup_cons.mp hnd).2 hv

theorem lookup_foldl_copyStep_of_none (p : Dict) (ks : List String) :
    ∀ (a : Dict) (k : String), lookup p k = Option.none →
      lookup a k = Option.none →
      lookup (List.foldl (copyStep p) a ks) k = Option.none := by
  induction ks with
  | nil =>
    intro a k _ ha
    exact ha
  | cons j rest ih =>
    intro a k hp ha
    simp only [List.foldl_cons]
    refine ih (copyStep p a j) k hp ?_
    by_cases hkj : k = j
    · subst hkj
      unfold copyStep
      rw [hp]
      exact ha
    · rw [lookup_copyStep_ne p a j k hkj]
      exact ha

/-! ### `baseArgs` and `aliasedProxy` lemmas -/

theorem lookup_baseArgs_host_some (proxy : Dict) (sfd : Option PyVal)
    (hv : PyVal) (h : lookup proxy "host" = some hv) :
    lookup (baseArgs proxy sfd) "host" = some hv := by
  unfold baseArgs
  rw [h]
  cases sfd <;> simp [setKey, lookup]

theorem lookup_baseArgs_host_none (proxy : Dict) (sfd : Option PyVal)
    (h : lookup proxy "host" = Option.none) :
    lookup (baseArgs proxy sfd) "host" = some PyVal.none := by
  unfold baseArgs
  rw [h]
  cases sfd <;> simp [setKey, lookup]

theorem lookup_baseArgs_sockfd (proxy : Dict) (sfd : Option PyVal) :
    lookup (baseArgs proxy sfd) "sock_fd" =
      some (match sfd with
            | some v => v
            | Option.none => PyVal.none) := by
  unfold baseArgs
  cases lookup proxy "host" <;> cases sfd <;> simp [setKey, lookup]

theorem lookup_baseArgs_other (proxy : Dict) (sfd : Option PyVal)
    (k : String) (h1 : k ≠ "host") (h2 : k ≠ "sock_fd") :
    lookup (baseArgs proxy sfd) k = Option.none := by
  unfold baseArgs
  cases lookup proxy "host" <;> cases sfd <;>
    simp [setKey, lookup, Ne.symm h1, Ne.symm h2]

theorem lookup_aliasedProxy_other (p : Dict) (k : String) (h1 : k ≠ "user")
    (h2 : k ≠ "username") : lookup (aliasedProxy p) k = lookup p k := by
  unfold aliasedProxy
  cases hu : lookup p "username" with
  | none => rfl
  | some v =>
    rw [lookup_setKey_ne _ _ _ _ h1, lookup_delKey_ne _ _ _ h2]

theorem lookup_aliasedProxy_user_of_username (p : Dict) (v : PyVal)
    (h : lookup p "username" = some v) :
    lookup (aliasedProxy p) "user" = some v := by
  unfold aliasedProxy
  rw [h]
  exact lookup_setKey_self _ _ _

theorem lookup_aliasedProxy_username (p : Dict) :
    lookup (aliasedProxy p) "username" = Option.none := by
  unfold aliasedProxy
  cases hu : lookup p "username" with
  | none => exact hu
  | some v =>
    rw [lookup_setKey_ne _ _ _ _ (by decide)]
    exact lookup_delKey_self _ _

/-! ### Read-loop lemmas -/

theorem parseLoop_stop (s : List Char) (val : Record) (msg : List Char)
    (count : Nat) (h : ¬(msg.length < 100 ∧ 0 < count)) :
    parseLoop s val msg count = .done val s := by
  rw [parseLoop.eq_def]
  exact if_neg h

theorem parseLoop_nil (val : Record) (msg : List Char) (count : Nat)
    (h : msg.length < 100 ∧ 0 < count) :
    parseLoop [] val msg count = .blocked val msg count := by
  rw [parseLoop.eq_def]
  exact if_pos h

theorem parseLoop_cons_continue (c : Char) (rest : List Char) (val : Record)
    (msg : List Char) (count : Nat) (val' : Record) (msg' : List Char)
    (count' : Nat) (h : msg.length < 100 ∧ 0 < count)
    (hb : handleByte c val msg count = .cont val' msg' count') :
    parseLoop (c :: rest) val msg count = parseLoop rest val' msg' count' := by
  rw [parseLoop.eq_def, if_pos h]
  show (match handleByte c val msg count with
        | .cont v m k => parseLoop rest v m k
        | .raiseVE => ParseResult.valueError rest) = _
  rw [hb]

theorem parseLoop_cons_raise (c : Char) (rest : List Char) (val : Record)
    (msg : List Char) (count : Nat) (h : msg.length < 100 ∧ 0 < count)
    (hb : handleByte c val msg count = .raiseVE) :
    parseLoop (c :: rest) val msg count = .valueError rest := by
  rw [parseLoop.eq_def, if_pos h]
  show (match handleByte c val msg count with
        | .cont v m k => parseLoop rest v m k
        | .raiseVE => ParseResult.valueError rest) = _
  rw [hb]

/-- When the loop exits normally having consumed an entire stream `s`, the
same run over `s ++ t` exits at the same point, leaving exactly `t`
unread. -/
theorem parseLoop_consume_all (s : List Char) (t : List Char) :
    ∀ (val : Record) (msg : List Char) (count : Nat) (v : Record),
      parseLoop s val msg count = .done v [] →
      parseLoop (s ++ t) val msg count = .done v t := by
  induction s with
  | nil =>
    intro val msg count v h
    by_cases hc : msg.length < 100 ∧ 0 < count
    · rw [parseLoop_nil val msg count hc] at h
      exact absurd h (by simp)
    · rw [parseLoop_stop [] val msg count hc] at h
      injection h with h1 h2
      subst h1
      rw [List.nil_append, parseLoop_stop t val msg count hc]
  | cons c rest ih =>
    intro val msg count v h
    by_cases hc : msg.length < 100 ∧ 0 < count
    · cases hb : handleByte c val msg count with
      | cont val' msg' count' =>
        rw [parseLoop_cons_continue c rest val msg count val' msg' count'
              hc hb] at h
        rw [List.cons_append,
            parseLoop_cons_continue c (rest ++ t) val msg count val' msg'
              count' hc hb]
        exact ih val' msg' count' v h
      | raiseVE =>
        rw [parseLoop_cons_raise c rest val msg count hc hb] at h
        exact absurd h (by simp)
    · rw [parseLoop_stop (c :: rest) val msg count hc] at h
      injection h with h1 h2
      exact absurd h2 (by simp)

/-- Over any stream holding no line feed whose non-carriage-return content
stays under the 100-byte cap, the read loop consumes every byte and is still
waiting for more: carriage returns are discarded without counting against
the cap or the line budget. -/
theorem parseLoop_no_newline (s : List Char) :
    ∀ (val : Record) (msg : List Char) (count : Nat),
      '\n' ∉ s → 0 < count →
      msg.length + (s.filter (fun c => c ≠ '\r')).length < 100 →
      parseLoop s val msg count =
        .blocked val (msg ++ s.filter (fun c => c ≠ '\r')) count := by
  induction s with
  | nil =>
    intro val msg count _ h2 h3
    have hm : msg.length < 100 := by simpa using h3
    rw [parseLoop_nil val msg count ⟨hm, h2⟩]
    simp
  | cons c rest ih =>
    intro val msg count h1 h2 h3
    have hcne : ¬c = '\n' := by
      intro e
      subst e
      exact h1 (List.mem_cons_self _ _)
    have h1' : '\n' ∉ rest := fun m => h1 (List.mem_cons_of_mem c m)
    have hm : msg.length < 100 := lt_of_le_of_lt (Nat.le_add_right _ _) h3
    by_cases hcr : c = '\r'
    · subst hcr
      have hfe : (('\r' :: rest).filter (fun x => x ≠ '\r')) =
          rest.filter (fun x => x ≠ '\r') := by simp
      rw [parseLoop_cons_continue '\r' rest val msg count val msg count
            ⟨hm, h2⟩ (by simp [handleByte])]
      rw [hfe] at h3 ⊢
      exact ih val msg count h1' h2 h3
    · have hfe : ((c :: rest).filter (fun x => x ≠ '\r')) =
          c :: rest.filter (fun x => x ≠ '\r') := by simp [hcr]
      have hb : handleByte c val msg count = .cont val (msg ++ [c]) count := by
        simp [handleByte, hcr, hcne]
      rw [parseLoop_cons_continue c rest val msg count val (msg ++ [c]) count
            ⟨hm, h2⟩ hb]
      have h3' : (msg ++ [c]).length +
          (rest.filter (fun x => x ≠ '\r')).length < 100 := by
        rw [hfe] at h3
        simp only [List.length_append, List.length_cons,
          List.length_nil] at h3 ⊢
        omega
      rw [ih val (msg ++ [c]) count h1' h2 h3', hfe]
      simp

/-! ### The claims -/

/-- Claim C1 (refuting the spec, exhibiting the code bug): on the input
stream `"garbageline\nDEVICE-ID: vmx1\nMSG-VER: 2\n"` the Handshake Parser
does not silently discard the separator-less first line - the always-true
guard `msg.find(':')` (which returns the truthy `-1`) lets
`'garbageline'.split(': ')` be unpacked into `(key, value)`, raising
`ValueError` and aborting the handshake instead of yielding
`{DEVICE-ID: "vmx1", MSG-VER: "2"}`. -/
theorem junos_handshake_garbage_line_raises :
    parseLoop ("garbageline\nDEVICE-ID: vmx1\nMSG-VER: 2\n".data)
      initVal [] 3 =
      .valueError ("DEVICE-ID: vmx1\nMSG-VER: 2\n".data) := by
  decide

/-- Claim C2 counterexample: with `proxy.host` configured and no inherited
socket, the assembled Connection Arguments do contain a `sock_fd` key - it
is explicitly bound to `None`, contradicting the claim that no key at all is
present for the absent field (and symmetrically for `host` in the
socket-inherited case). -/
theorem junos_initArgs_absent_key_counterexample :
    lookup (initArgs [("host", PyVal.str "1.2.3.4")] Option.none) "sock_fd" =
      some PyVal.none ∧
    hasKey (initArgs [("host", PyVal.str "1.2.3.4")] Option.none) "sock_fd" =
      true ∧
    hasKey (initArgs [] (some (PyVal.int 7))) "host" = true := by
  decide

/-- Claim C2 (amended): for every configuration in which exactly one of
`proxy.host` and the top-level inherited-socket field is present, `init`
builds Connection Arguments carrying the present one (`host` equal to the
configured value, or `sock_fd` equal to the inherited descriptor), while the
absent one is present as a key explicitly bound to `None` (rather than being
omitted). -/
theorem junos_initArgs_exactly_one_present :
    (∀ (proxy : Dict) (hv : PyVal), lookup proxy "host" = some hv →
       lookup (initArgs proxy Option.none) "host" = some hv ∧
       lookup (initArgs proxy Option.none) "sock_fd" = some PyVal.none) ∧
    (∀ (proxy : Dict) (fd : PyVal), lookup proxy "host" = Option.none →
       lookup (initArgs proxy (some fd)) "sock_fd" = some fd ∧
       lookup (initArgs proxy (some fd)) "host" = some PyVal.none) := by
  constructor
  · intro proxy hv h
    constructor
    · unfold initArgs
      rw [lookup_foldl_copyStep_not_mem (aliasedProxy proxy) optional_args
            (baseArgs proxy Option.none) "host" (by decide)]
      exact lookup_baseArgs_host_some proxy Option.none hv h
    · unfold initArgs
      rw [lookup_foldl_copyStep_not_mem (aliasedProxy proxy) optional_args
            (baseArgs proxy Option.none) "sock_fd" (by decide)]
      exact lookup_baseArgs_sockfd proxy Option.none
  · intro proxy fd h
    constructor
    · unfold initArgs
      rw [lookup_foldl_copyStep_not_mem (aliasedProxy proxy) optional_args
            (baseArgs proxy (some fd)) "sock_fd" (by decide)]
      exact lookup_baseArgs_sockfd proxy (some fd)
    · unfold initArgs
      rw [lookup_foldl_copyStep_not_mem (aliasedProxy proxy) optional_args
            (baseArgs proxy (some fd)) "host" (by decide)]
      exact lookup_baseArgs_host_none proxy (some fd) h

/-- Witness for the amended Claim C2 at concrete configurations. -/
theorem junos_initArgs_exactly_one_present_witness :
    lookup (initArgs [("host", PyVal.str "10.0.0.1")] Option.none) "host" =
      some (PyVal.str "10.0.0.1") ∧
    lookup (initArgs [("host", PyVal.str "10.0.0.1")] Option.none) "sock_fd" =
      some PyVal.none ∧
    lookup (initArgs [] (some (PyVal.int 7))) "sock_fd" =
      some (PyVal.int 7) ∧
    lookup (initArgs [] (some (PyVal.int 7))) "host" = some PyVal.none := by
  refine ⟨?_, ?_, ?_, ?_⟩
  · exact (junos_initArgs_exactly_one_present.1
      [("host", PyVal.str "10.0.0.1")] (PyVal.str "10.0.0.1") (by decide)).1
  · exact (junos_initArgs_exactly_one_present.1
      [("host", PyVal.str "10.0.0.1")] (PyVal.str "10.0.0.1") (by decide)).2
  · exact (junos_initArgs_exactly_one_present.2 [] (PyVal.int 7)
      (by decide)).1
  · exact (junos_initArgs_exactly_one_present.2 [] (PyVal.int 7)
      (by decide)).2

/-- Claim C3 counterexample: a configuration whose proxy sub-mapping holds
only the legacy key `passwd` yields Connection Arguments with the value
still under `passwd` and no `password` key at all - `init` performs no
`passwd` to `password` aliasing (only `username` is renamed). -/
theorem junos_initArgs_passwd_counterexample :
    lookup (initArgs [("passwd", PyVal.str "s3cret")] Option.none) "passwd" =
      some (PyVal.str "s3cret") ∧
    hasKey (initArgs [("passwd", PyVal.str "s3cret")] Option.none)
      "password" = false := by
  decide

/-- Claim C3 (amended): for every configuration whose proxy sub-mapping
contains the legacy key `passwd`, `init` copies the value through unchanged
under the key `passwd` itself; no aliasing to `password` occurs, and the
`password` entry of the assembled Connection Arguments is exactly the
`password` entry of the proxy sub-mapping (absent when absent there). -/
theorem junos_initArgs_passwd_copied_verbatim :
    ∀ (proxy : Dict) (sfd : Option PyVal) (v : PyVal),
      lookup proxy "passwd" = some v →
      lookup (initArgs proxy sfd) "passwd" = some v ∧
      lookup (initArgs proxy sfd) "password" = lookup proxy "password" := by
  intro proxy sfd v h
  have hp2 : lookup (aliasedProxy proxy) "passwd" = some v := by
    rw [lookup_aliasedProxy_other proxy "passwd" (by decide) (by decide)]
    exact h
  constructor
  · unfold initArgs
    exact lookup_foldl_copyStep_of_some (aliasedProxy proxy) optional_args
      (baseArgs proxy sfd) "passwd" v (by decide) (by decide) hp2
  · have hpw2 : lookup (aliasedProxy proxy) "password" =
        lookup proxy "password" :=
      lookup_aliasedProxy_other proxy "password" (by decide) (by decide)
    cases hpw : lookup proxy "password" with
    | some pv =>
      unfold initArgs
      rw [lookup_foldl_copyStep_of_some (aliasedProxy proxy) optional_args
            (baseArgs proxy sfd) "password" pv (by decide) (by decide)
            (hpw2.trans hpw)]
    | none =>
      unfold initArgs
      rw [lookup_foldl_copyStep_of_none (aliasedProxy proxy) optional_args
            (baseArgs proxy sfd) "password" (hpw2.trans hpw)
            (lookup_baseArgs_other proxy sfd "password" (by decide)
              (by decide))]

/-- Witness for the amended Claim C3 at a concrete configuration. -/
theorem junos_initArgs_passwd_copied_verbatim_witness :
    lookup (initArgs [("passwd", PyVal.str "pw")] Option.none) "passwd" =
      some (PyVal.str "pw") ∧
    lookup (initArgs [("passwd", PyVal.str "pw")] Option.none) "password" =
      lookup [("passwd", PyVal.str "pw")] "password" :=
  junos_initArgs_passwd_copied_verbatim [("passwd", PyVal.str "pw")]
    Option.none (PyVal.str "pw") (by decide)

/-- Claim C4: whatever the underlying session-close call does - returning
normally, raising an arbitrary exception, or there being no stored session
handle so that `thisproxy['conn']` itself raises `KeyError` - `shutdown`
completes normally: the `try`/`except Exception: pass` swallows every error
of the close step. -/
theorem junos_shutdown_close_errors_suppressed :
    ∀ (opts : Dict) (reg : Registry)
      (closeSession : Session → PyResult Unit) (v : PyVal),
      lookup opts "id" = some v →
      shutdown opts reg closeSession = .ok () := by
  intro opts reg closeSession v h
  unfold shutdown
  rw [h]
  cases reg with
  | none => rfl
  | some s => cases hcs : closeSession s <;> simp [hcs]

/-- Witness for Claim C4: a raising close call with a stored session, and
a missing session handle, both complete normally. -/
theorem junos_shutdown_close_errors_suppressed_witness :
    shutdown [("id", PyVal.str "vmx1")] Option.none
      (fun _ => .exn (.other "RuntimeError")) = .ok () ∧
    shutdown [("id", PyVal.str "vmx1")] (some ⟨false, []⟩)
      (fun _ => .exn (.other "ConnectError")) = .ok () :=
  ⟨junos_shutdown_close_errors_suppressed _ _ _ (PyVal.str "vmx1") (by decide),
   junos_shutdown_close_errors_suppressed _ _ _ (PyVal.str "vmx1") (by decide)⟩

/-- Claim C5: on the stream `"MSG-ID: 42\nMSG-VER: 1\nDEVICE-ID: vmx1\n"`
followed by arbitrary trailing bytes, the Handshake Parser stops right after
the third line feed with the Handshake Record
`{MSG-ID: "42", MSG-VER: "1", DEVICE-ID: "vmx1"}`, leaving the trailing
bytes unread. -/
theorem junos_handshake_three_lines_exact (trailing : List Char) :
    parseLoop ("MSG-ID: 42\nMSG-VER: 1\nDEVICE-ID: vmx1\n".data ++ trailing)
      initVal [] 3 =
      .done [("MSG-ID".data, some ("42".data)),
             ("MSG-VER".data, some ("1".data)),
             ("DEVICE-ID".data, some ("vmx1".data))] trailing :=
  parseLoop_consume_all "MSG-ID: 42\nMSG-VER: 1\nDEVICE-ID: vmx1\n".data
    trailing initVal [] 3 _ (by decide)

/-- Claim C6: for a parser-produced Handshake Record (whose `DEVICE-ID` key
is always bound), the dispatcher spawns exactly one worker with argument
vector `/usr/bin/salt-proxy --proxyid <device-id> --sockfd <fd>
--disable-keepalive` when `DEVICE-ID` is a non-empty string, and spawns
nothing - raising no error - when it is `None` or empty. -/
theorem junos_launch_device_id_dispatch :
    (∀ (val : Record) (fh : Nat) (d : List Char),
        recLookup val ("DEVICE-ID".data) = some (some d) → d ≠ [] →
        launchDecision val fh =
          .spawned ["/usr/bin/salt-proxy".data, "--proxyid".data, d,
                    "--sockfd".data, natStr fh,
                    "--disable-keepalive".data]) ∧
    (∀ (val : Record) (fh : Nat) (dv : Option (List Char)),
        recLookup val ("DEVICE-ID".data) = some dv →
        dv = Option.none ∨ dv = some [] →
        launchDecision val fh = .noSpawn) := by
  constructor
  · intro val fh d h hne
    unfold launchDecision
    rw [h]
    simp [hne]
  · intro val fh dv h hdv
    unfold launchDecision
    rw [h]
    cases hdv with
    | inl e =>
      subst e
      rfl
    | inr e =>
      subst e
      simp

/-- Witness for Claim C6: a populated record spawns with the exact argument
vector; the freshly initialized record (all values `None`) spawns nothing. -/
theorem junos_launch_device_id_dispatch_witness :
    launchDecision [("DEVICE-ID".data, some ("vmx1".data))] 5 =
      .spawned ["/usr/bin/salt-proxy".data, "--proxyid".data, "vmx1".data,
                "--sockfd".data, natStr 5, "--disable-keepalive".data] ∧
    launchDecision initVal 5 = .noSpawn :=
  ⟨junos_launch_device_id_dispatch.1 [("DEVICE-ID".data, some ("vmx1".data))]
      5 ("vmx1".data) (by decide) (by decide),
   junos_launch_device_id_dispatch.2 initVal 5 Option.none (by decide)
      (Or.inl rfl)⟩

/-- Claim C7: before `init` has stored a session handle (the registry slot
`thisproxy['conn']` is empty), `conn()`, `get_serialized_facts()` and
`ping()` all raise a missing-key `KeyError` instead of returning a value. -/
theorem junos_preinit_accessors_key_error :
    conn Option.none = .exn (.keyError "conn") ∧
    get_serialized_facts Option.none = .exn (.keyError "conn") ∧
    ping Option.none = .exn (.keyError "conn") :=
  ⟨rfl, rfl, rfl⟩

/-- Claim C8: a configuration with `proxy.username` set and no `proxy.user`
key yields Connection Arguments with the value under `user` and no residual
`username` key - the alias is a destructive rename, not a copy. -/
theorem junos_initArgs_username_alias :
    ∀ (proxy : Dict) (sfd : Option PyVal) (v : PyVal),
      lookup proxy "username" = some v →
      lookup proxy "user" = Option.none →
      lookup (initArgs proxy sfd) "user" = some v ∧
      hasKey (initArgs proxy sfd) "username" = false := by
  intro proxy sfd v hu _
  constructor
  · unfold initArgs
    exact lookup_foldl_copyStep_of_some (aliasedProxy proxy) optional_args
      (baseArgs proxy sfd) "user" v (by decide) (by decide)
      (lookup_aliasedProxy_user_of_username proxy v hu)
  · have hnone : lookup (initArgs proxy sfd) "username" = Option.none := by
      unfold initArgs
      exact lookup_foldl_copyStep_of_none (aliasedProxy proxy) optional_args
        (baseArgs proxy sfd) "username" (lookup_aliasedProxy_username proxy)
        (lookup_baseArgs_other proxy sfd "username" (by decide) (by decide))
    simp [hasKey, hnone]

/-- Witness for Claim C8 at the configuration `proxy.username = "x"`. -/
theorem junos_initArgs_username_alias_witness :
    lookup (initArgs [("username", PyVal.str "x")] Option.none) "user" =
      some (PyVal.str "x") ∧
    hasKey (initArgs [("username", PyVal.str "x")] Option.none) "username" =
      false :=
  junos_initArgs_username_alias [("username", PyVal.str "x")] Option.none
    (PyVal.str "x") (by decide) (by decide)

/-- Claim C9: the 100-byte cap counts only bytes appended to the line
buffer - carriage returns are discarded uncounted - so on any stream free of
line feeds whose non-carriage-return content stays below 100 bytes (in
particular a stream of carriage returns alone), the read loop consumes every
byte and is still waiting for more: over the unbounded such stream it never
terminates. -/
theorem junos_handshake_cr_only_never_terminates :
    ∀ (s : List Char), '\n' ∉ s →
      (s.filter (fun c => c ≠ '\r')).length < 100 →
      parseLoop s initVal [] 3 =
        .blocked initVal (s.filter (fun c => c ≠ '\r')) 3 := by
  intro s h1 h2
  have h := parseLoop_no_newline s initVal [] 3 h1 (by decide)
    (by simpa using h2)
  simpa using h

/-- Witness for Claim C9: a pure carriage-return stream of 150 bytes is
fully consumed with the loop still running, empty buffer and untouched line
budget. -/
theorem junos_handshake_cr_only_never_terminates_witness :
    '\n' ∉ List.replicate 150 '\r' ∧
    parseLoop (List.replicate 150 '\r') initVal [] 3 =
      .blocked initVal [] 3 := by
  refine ⟨by decide, ?_⟩
  have h := junos_handshake_cr_only_never_terminates
    (List.replicate 150 '\r') (by decide) (by decide)
  simpa using h

/-- Claim C10: `shutdown(opts)` evaluates `opts['id']` for its logging line
before entering the `try` that guards the close call, so a configuration
lacking an `id` entry makes `shutdown` raise a `KeyError` despite the
never-propagate policy, which covers only the close step. -/
theorem junos_shutdown_missing_id_key_error :
    ∀ (opts : Dict) (reg : Registry)
      (closeSession : Session → PyResult Unit),
      lookup opts "id" = Option.none →
      shutdown opts reg closeSession = .exn (.keyError "id") := by
  intro opts reg closeSession h
  unfold shutdown
  rw [h]

/-- Witness for Claim C10 at the empty configuration. -/
theorem junos_shutdown_missing_id_key_error_witness :
    shutdown [] Option.none (fun _ => .ok ()) = .exn (.keyError "id") :=
  junos_shutdown_missing_id_key_error [] Option.none (fun _ => .ok ()) rfl

end Junos
